import Mathlib

/-!
Verification of the Portal-Plus JIIT checker core (`src/src/jiit_checker.py`,
with the legacy revision `src/jiit_checker.py` where a claim cites it).

The Python code is shallowly embedded: dict-valued upstream responses become
structures whose fields are the exact portal field names the code reads
(`subject_data.get(field, 0) or 0` defaulting is modelled by total fields whose
value is the post-default value), Python dicts keyed by strings become
insertion-ordered association lists with in-place overwrite (`pyDictInsert`),
fallible upstream calls become `Except`/`Option`-valued oracle parameters, and
Python floats are modelled by `ℚ` (every concrete value appearing in the claims
is exactly representable).
-/

namespace PortalPlus

/-- Python `dict` lookup: first (unique) binding of the key. -/
def pyDictLookup {α : Type} (m : List (String × α)) (k : String) : Option α :=
  match m with
  | [] => none
  | (k', v) :: t => if k' = k then some v else pyDictLookup t k

/-- Python `d[k] = v`: replace in place if the key is present (keeping its
position, as CPython dicts do), else append at the end. -/
def pyDictInsert {α : Type} (m : List (String × α)) (k : String) (v : α) :
    List (String × α) :=
  match m with
  | [] => [(k, v)]
  | (k', v') :: t => if k' = k then (k', v) :: t else (k', v') :: pyDictInsert t k v

/-- The keys of an (association-list) dict, in order. -/
def dictKeys {α : Type} (m : List (String × α)) : List String :=
  m.map Prod.fst

/-- ASCII whitespace, as recognised by Python `str.strip()` / `str.split()`
on the strings this code handles. -/
def isPySpace (c : Char) : Bool :=
  c = ' ' ∨ c = '\t' ∨ c = '\n' ∨ c = '\r' ∨ c = '\x0b' ∨ c = '\x0c'

/-- Python `str.strip()` on a character list. -/
def pyStripL (cs : List Char) : List Char :=
  ((cs.dropWhile isPySpace).reverse.dropWhile isPySpace).reverse

/-- Python `str.strip()`. -/
def pyStrip (s : String) : String :=
  String.mk (pyStripL s.data)

/-- Accumulator pass for `pySplit`; `cur` is the (reversed) token being
read. -/
def pySplitAux : List Char → List Char → List (List Char)
  | [], cur => if cur.isEmpty then [] else [cur.reverse]
  | c :: rest, cur =>
    if isPySpace c then
      if cur.isEmpty then pySplitAux rest [] else cur.reverse :: pySplitAux rest []
    else pySplitAux rest (c :: cur)

/-- Python `str.split()` (no argument): split on runs of whitespace,
discarding empty tokens. -/
def pySplit (cs : List Char) : List (List Char) :=
  pySplitAux cs []

/-- Whether `needle` is a prefix of `hay` (Python `str.startswith`). -/
def pyStartsWith : List Char → List Char → Bool
  | _, [] => true
  | [], _ :: _ => false
  | h :: hs, n :: ns => h = n && pyStartsWith hs ns

/-- Python `needle in hay` substring containment. -/
def pyContains (needle : List Char) : List Char → Bool
  | [] => pyStartsWith [] needle
  | h :: t => pyStartsWith (h :: t) needle || pyContains needle t

/-- Python `str.upper()` (the strings involved are ASCII). -/
def pyUpper (s : String) : String :=
  String.mk (s.data.map Char.toUpper)

/-- Embedding of `re.search(r'\(([^)]+)\)', s)`: the leftmost position holding `'('`
followed by at least one non-`')'` character and then a `')'`; the group is
the run of non-`')'` characters. -/
def pyFindParen : List Char → Option (List Char)
  | [] => none
  | c :: rest =>
    if c = '(' then
      let content := rest.takeWhile (fun x => x ≠ ')')
      match rest.dropWhile (fun x => x ≠ ')') with
      | ')' :: _ => if content.isEmpty then pyFindParen rest else some content
      | _ => pyFindParen rest
    else pyFindParen rest

/-- Embedding of `re.search` for a `k`-digit pattern: the leftmost window of `k` consecutive digits. -/
def pyFindDigitRun (k : Nat) : List Char → Option (List Char)
  | [] => if k = 0 then some [] else none
  | c :: rest =>
    let w := (c :: rest).take k
    if w.length = k ∧ w.all Char.isDigit then some w
    else pyFindDigitRun k rest

/-- Digits of a decimal literal to a natural number. -/
def digitsToNat (cs : List Char) : Nat :=
  cs.foldl (fun acc c => acc * 10 + (c.toNat - '0'.toNat)) 0

/-- Python `float(s)` restricted to the decimal literals this code feeds it
(`"1.5"`, `"15.0"`, `"0"`, …): optional sign, then digits with at most one
point and at least one digit; anything else raises, modelled as `none`.  The
value `d₁…dₘ.e₁…eₙ` is the exact rational `d₁…dₘe₁…eₙ / 10^n` (every marks
value the PDF holds is exactly representable). -/
def pyFloat (cs : List Char) : Option ℚ :=
  let (neg, body) : Bool × List Char :=
    match cs with
    | '-' :: t => (true, t)
    | '+' :: t => (false, t)
    | t => (false, t)
  let intPart := body.takeWhile Char.isDigit
  let build : List Char → List Char → Option ℚ := fun ip fp =>
    if ip.isEmpty ∧ fp.isEmpty then none
    else
      let q := mkRat (digitsToNat (ip ++ fp)) (10 ^ fp.length)
      some (if neg then -q else q)
  match body.dropWhile Char.isDigit with
  | [] => if intPart.isEmpty then none else build intPart []
  | '.' :: fracRest =>
    let fracPart := fracRest.takeWhile Char.isDigit
    if (fracRest.dropWhile Char.isDigit).isEmpty then build intPart fracPart
    else none
  | _ => none

/-!
### Attendance (`JIITChecker.fetch_attendance`)

`src/src/jiit_checker.py` lines 165-269 (current revision) and
`src/jiit_checker.py` lines 97-202 (legacy revision).  A raw record of the
portal's `studentattendancelist` is a dict; the structure below holds the
post-defaulting value of every field either revision reads
(`get(f, 0) or 0` for counts/percentages, so a missing or falsy field is `0`;
name fields that are defaulted only when missing are `Option String`).
-/

structure RawSubjectRecord where
  subjectcode : Option String
  Lsubjectcode : Option String
  subject_code : Option String
  Lsubjectdesc : Option String
  subject_desc : Option String
  Ltotalclass : Nat
  Ltotalpres : Nat
  Ttotalclass : Nat
  Ttotalpres : Nat
  Ptotalclass : Nat
  Ptotalpres : Nat
  LTtotalclass : Nat
  LTtotalpres : Nat
  Lpercentage : ℚ
  LTpercentage : ℚ
  Ppercentage : ℚ
  Tpercentage : ℚ
  LTpercantage : ℚ
  subjectid : String
  individualsubjectcode : String
  Lsubjectcomponentid : String
  Tsubjectcomponentid : String
  Psubjectcomponentid : String
deriving DecidableEq

/-- A record with every field absent/zero, for building concrete inputs. -/
def RawSubjectRecord.zero : RawSubjectRecord :=
  ⟨none, none, none, none, none, 0, 0, 0, 0, 0, 0, 0, 0, 0, 0, 0, 0, 0, "", "", "", "", ""⟩

/-- The per-subject dict the current revision's basic pass builds
(`component_ids` sub-dict flattened into the three `_cid` fields). -/
structure BasicData where
  total : Nat
  attended : Nat
  percentage : ℚ
  subject_id : String
  individual_subject_code : String
  lecture_cid : String
  tutorial_cid : String
  practical_cid : String
deriving DecidableEq

/-- Current revision: `subject_total = l_total + t_total + p_total`. -/
def RawSubjectRecord.subjectTotal (r : RawSubjectRecord) : Nat :=
  r.Ltotalclass + r.Ttotalclass + r.Ptotalclass

/-- Current revision: `subject_present = l_present + t_present + p_present`. -/
def RawSubjectRecord.subjectPresent (r : RawSubjectRecord) : Nat :=
  r.Ltotalpres + r.Ttotalpres + r.Ptotalpres

/-- One iteration of the current revision's basic pass (lines 182-210): skip
the record when its summed total is `0`, otherwise produce the
`basic_subjects` binding keyed by `subjectcode` (default `'Unknown Subject'`). -/
def basicSubjectOfRecord (r : RawSubjectRecord) : Option (String × BasicData) :=
  if r.subjectTotal = 0 then none
  else some (r.subjectcode.getD "Unknown Subject",
    { total := r.subjectTotal
      attended := r.subjectPresent
      percentage :=
        if r.LTpercantage > 0 then r.LTpercantage
        else (r.subjectPresent : ℚ) / (r.subjectTotal : ℚ) * 100
      subject_id := r.subjectid
      individual_subject_code := r.individualsubjectcode
      lecture_cid := r.Lsubjectcomponentid
      tutorial_cid := r.Tsubjectcomponentid
      practical_cid := r.Psubjectcomponentid })

/-- The `basic_subjects` dict of the current revision. -/
def basicSubjectsOf (records : List RawSubjectRecord) : List (String × BasicData) :=
  records.foldl
    (fun m r =>
      match basicSubjectOfRecord r with
      | none => m
      | some (k, v) => pyDictInsert m k v) []

/-- Outcome of `_get_detailed_subject_attendance` when it did not return
`None`: the response's `status.responseStatus` string and, for each entry of
`response.studentAttdsummarylist`, the entry's `present` field. -/
structure DetailResponse where
  responseStatus : String
  studentAttdsummarylist : List String
deriving DecidableEq

/-- A value of `enhanced_subjects`: either the untouched `basic_data` dict or
the dict built from a successful detailed call (lines 234-242). -/
inductive SubjectEntry
  | basic (b : BasicData)
  | detailed (total attended absent : Nat) (percentage : ℚ)
      (subject_id subject_code : String) (detailed_data : List String)
deriving DecidableEq

structure EnhanceAcc where
  subjects : List (String × SubjectEntry)
  total_classes : Nat
  total_attended : Nat
deriving DecidableEq

/-- One iteration of the current revision's enhancement loop (lines 216-250).
`detail` is the oracle for `_get_detailed_subject_attendance`, `none` standing
for any of its swallowed failures (payload-generation error, non-200 response,
request exception).  A subject with an empty `subject_id` is stored as-is and
— by the `continue` on line 220 — contributes nothing to the running
`total_classes`/`total_attended`. -/
def enhanceStep (detail : String → Option DetailResponse) (acc : EnhanceAcc)
    (kv : String × BasicData) : EnhanceAcc :=
  let name := kv.1
  let b := kv.2
  if b.subject_id = "" then
    { acc with subjects := pyDictInsert acc.subjects name (.basic b) }
  else
    let useBasic : EnhanceAcc :=
      { subjects := pyDictInsert acc.subjects name (.basic b)
        total_classes := acc.total_classes + b.total
        total_attended := acc.total_attended + b.attended }
    match detail name with
    | none => useBasic
    | some d =>
      if d.responseStatus = "Success" then
        let lst := d.studentAttdsummarylist
        if lst.isEmpty then useBasic
        else
          let tot := lst.length
          let pres := (lst.filter (fun s => s = "Present")).length
          { subjects := pyDictInsert acc.subjects name
              (.detailed tot pres (tot - pres)
                (if tot > 0 then (pres : ℚ) / (tot : ℚ) * 100 else 0)
                b.subject_id b.individual_subject_code lst)
            total_classes := acc.total_classes + tot
            total_attended := acc.total_attended + pres }
      else useBasic

/-- The snapshot the current `fetch_attendance` returns (the wall-clock
`last_updated`, the `current_semester` passthrough and the constant
`enhanced: True` flag are not modelled). -/
structure AttendanceSnapshot where
  total_classes : Nat
  attended_classes : Nat
  attendance_percentage : ℚ
  subjects : List (String × SubjectEntry)
deriving DecidableEq

/-- Current `fetch_attendance`, as a function of the portal's
`studentattendancelist` and the per-subject detailed-attendance oracle. -/
def fetchAttendance (records : List RawSubjectRecord)
    (detail : String → Option DetailResponse) : AttendanceSnapshot :=
  let acc := (basicSubjectsOf records).foldl (enhanceStep detail) ⟨[], 0, 0⟩
  { total_classes := acc.total_classes
    attended_classes := acc.total_attended
    attendance_percentage :=
      if acc.total_classes > 0 then
        (acc.total_attended : ℚ) / (acc.total_classes : ℚ) * 100
      else 0
    subjects := acc.subjects }

/-!
### Legacy attendance (`src/jiit_checker.py` lines 97-202)

The legacy revision reads `LTtotalclass`/`LTtotalpres` as the tutorial
component, keeps every record (no `total = 0` skip), accumulates the overall
totals before the dict overwrite, and selects the subject percentage by the
five-level priority chain of lines 165-174.
-/

/-- Legacy subject key: the `or`-chain of lines 128-133 (first non-empty). -/
def legacySubjectCode (r : RawSubjectRecord) : String :=
  let truthy : Option String → Option String := fun o =>
    match o with
    | some s => if s = "" then none else some s
    | none => none
  (((((truthy r.Lsubjectcode).or (truthy r.subject_code)).or
      (truthy r.subjectcode)).or (truthy r.Lsubjectdesc)).or
      (truthy r.subject_desc)).getD "Unknown Subject"

/-- Legacy revision: `subject_total = l_total + lt_total + p_total`. -/
def RawSubjectRecord.legacyTotal (r : RawSubjectRecord) : Nat :=
  r.Ltotalclass + r.LTtotalclass + r.Ptotalclass

/-- Legacy revision: `subject_present = l_present + lt_present + p_present`. -/
def RawSubjectRecord.legacyPresent (r : RawSubjectRecord) : Nat :=
  r.Ltotalpres + r.LTtotalpres + r.Ptotalpres

structure LegacyEntry where
  total : Nat
  attended : Nat
  percentage : ℚ
  overall_ltp_percentage : ℚ
  lecture_percentage : ℚ
  tutorial_percentage : ℚ
  practical_percentage : ℚ
deriving DecidableEq

/-- The `subject_attendance` entry the legacy loop body builds for a record,
with the percentage priority chain of lines 165-174. -/
def legacyEntryOfRecord (r : RawSubjectRecord) : LegacyEntry :=
  { total := r.legacyTotal
    attended := r.legacyPresent
    percentage :=
      if r.LTpercantage > 0 then r.LTpercantage
      else if r.Ppercentage > 0 then r.Ppercentage
      else if r.Lpercentage > 0 then r.Lpercentage
      else if r.Tpercentage > 0 then r.Tpercentage
      else if r.legacyTotal > 0 then
        (r.legacyPresent : ℚ) / (r.legacyTotal : ℚ) * 100
      else 0
    overall_ltp_percentage := r.LTpercantage
    lecture_percentage := r.Lpercentage
    tutorial_percentage := r.LTpercentage
    practical_percentage := r.Ppercentage }

structure LegacySnapshot where
  total_classes : Nat
  attended_classes : Nat
  attendance_percentage : ℚ
  subjects : List (String × LegacyEntry)
deriving DecidableEq

/-- One iteration of the legacy loop: the subject is stored unconditionally
and the overall counters grow by the record totals (no skip). -/
def legacyStep (acc : List (String × LegacyEntry) × Nat × Nat)
    (r : RawSubjectRecord) : List (String × LegacyEntry) × Nat × Nat :=
  (pyDictInsert acc.1 (legacySubjectCode r) (legacyEntryOfRecord r),
    acc.2.1 + r.legacyTotal, acc.2.2 + r.legacyPresent)

/-- Legacy `fetch_attendance` over the raw record list. -/
def legacyFetchAttendance (records : List RawSubjectRecord) : LegacySnapshot :=
  let acc := records.foldl legacyStep ([], 0, 0)
  { total_classes := acc.2.1
    attended_classes := acc.2.2
    attendance_percentage :=
      if acc.2.1 > 0 then (acc.2.2 : ℚ) / (acc.2.1 : ℚ) * 100 else 0
    subjects := acc.1 }

/-- The spec's five-level percentage selection (§4.1), stated over a subject's
combined-LTP/practical/lecture/tutorial percentage fields and its summed
present/total counts.  (In `ℚ`, `present / 0 * 100 = 0`.) -/
def specPriorityPercentage (ltp practical lecture tutorial : ℚ)
    (present total : Nat) : ℚ :=
  if ltp > 0 then ltp
  else if practical > 0 then practical
  else if lecture > 0 then lecture
  else if tutorial > 0 then tutorial
  else (present : ℚ) / (total : ℚ) * 100

/-!
### Semester display names

`fetch_marks_semesters` (lines 445-502), `fetch_marks_for_semester`
(lines 633-691) and `download_marks` (lines 551-577) each derive a display
name from a semester object's `semester_name` and `registration_code`
attributes; the three derivations are embedded separately, mirroring the
source duplication.
-/

/-- Registration-code extraction shared by all three sites: the parenthesized
substring of the name if present, else the `registration_code` attribute
(the parenthesized group is never empty, so the `if not reg_code` re-read
collapses to this). -/
def regCodeOf (semester_name reg_attr : String) : String :=
  match pyFindParen semester_name.data with
  | some c => String.mk c
  | none => reg_attr

/-- The 2-digit year mapping of lines 474-480: `v ≥ 50 → "19"+v`, else `"20"+v`. -/
def twoDigitYear (y2 : List Char) : List Char :=
  if digitsToNat y2 ≥ 50 then '1' :: '9' :: y2 else '2' :: '0' :: y2

/-- The `year_patterns` loop of lines 463-483.  The middle pattern
`(\d{2})(\d{2})` can only match where four consecutive digits occur, which the
first pattern `(\d{4})` already captured, so it never fires and the loop
reduces to: a 4-digit run verbatim, else the first 2-digit run mapped through
`twoDigitYear`. -/
def yearFromPatterns (s : List Char) : Option (List Char) :=
  match pyFindDigitRun 4 s with
  | some y => some y
  | none =>
    match pyFindDigitRun 2 s with
    | some y2 => some (twoDigitYear y2)
    | none => none

/-- Display name as built by `fetch_marks_semesters` (lines 447-502). -/
def fmsDisplay (semester_name reg_attr : String) : String :=
  let reg_code := regCodeOf semester_name reg_attr
  let nameUpper := pyUpper semester_name
  let reg_code_upper := if reg_code ≠ "" then pyUpper reg_code else nameUpper
  let year :=
    match yearFromPatterns reg_code_upper.data with
    | some y => some y
    | none => pyFindDigitRun 4 nameUpper.data
  let yearStr := year.map String.mk
  if pyContains "ODD".data reg_code_upper.data ||
      pyContains "ODD".data nameUpper.data then
    match yearStr with
    | some y => "Odd " ++ y
    | none => "Odd Semester"
  else if pyContains "EVE".data reg_code_upper.data ||
      pyContains "EVEN".data nameUpper.data then
    match yearStr with
    | some y => "Even " ++ y
    | none => "Even Semester"
  else if pyContains "SUMMER".data reg_code_upper.data ||
      pyContains "SUMMER".data nameUpper.data then
    match yearStr with
    | some y => "Summer " ++ y
    | none => "Summer Semester"
  else if semester_name ≠ "" then semester_name
  else "Unknown Semester"

/-- Display name as recomputed by `fetch_marks_for_semester` when resolving a
selected label (lines 634-685).  Identical to `fmsDisplay` except that the
unknown-type fallback is the raw name itself (line 679), with no
`"Unknown Semester"` default. -/
def fmfsDisplay (semester_name reg_attr : String) : String :=
  let reg_code := regCodeOf semester_name reg_attr
  let nameUpper := pyUpper semester_name
  let reg_code_upper := if reg_code ≠ "" then pyUpper reg_code else nameUpper
  let year :=
    match yearFromPatterns reg_code_upper.data with
    | some y => some y
    | none => pyFindDigitRun 4 nameUpper.data
  let yearStr := year.map String.mk
  if pyContains "ODD".data reg_code_upper.data ||
      pyContains "ODD".data nameUpper.data then
    match yearStr with
    | some y => "Odd " ++ y
    | none => "Odd Semester"
  else if pyContains "EVE".data reg_code_upper.data ||
      pyContains "EVEN".data nameUpper.data then
    match yearStr with
    | some y => "Even " ++ y
    | none => "Even Semester"
  else if pyContains "SUMMER".data reg_code_upper.data ||
      pyContains "SUMMER".data nameUpper.data then
    match yearStr with
    | some y => "Summer " ++ y
    | none => "Summer Semester"
  else semester_name

/-- Display name as recomputed by `download_marks` (lines 552-574): the year
comes only from `re.search(r'(\d{4})', reg_code)` — no 2-digit mapping and no
fallback search in the name. -/
def dmDisplay (semester_name reg_attr : String) : String :=
  let reg_code := regCodeOf semester_name reg_attr
  let nameUpper := pyUpper semester_name
  let reg_code_upper := if reg_code ≠ "" then pyUpper reg_code else nameUpper
  let year := if reg_code ≠ "" then pyFindDigitRun 4 reg_code.data else none
  let yearStr := year.map String.mk
  if pyContains "ODD".data reg_code_upper.data ||
      pyContains "ODD".data nameUpper.data then
    match yearStr with
    | some y => "Odd " ++ y
    | none => "Odd Semester"
  else if pyContains "EVE".data reg_code_upper.data ||
      pyContains "EVEN".data nameUpper.data then
    match yearStr with
    | some y => "Even " ++ y
    | none => "Even Semester"
  else if pyContains "SUMMER".data reg_code_upper.data ||
      pyContains "SUMMER".data nameUpper.data then
    match yearStr with
    | some y => "Summer " ++ y
    | none => "Summer Semester"
  else semester_name

/-!
### Marks-line parsing and PDF extraction

`JIITChecker._parse_marks_line` (lines 954-1001) and the scanner of
`_extract_marks_from_pdf` (lines 884-952).
-/

/-- The `t1` value of a parsed marks line: the string `'A'` (absent) or a
float. -/
inductive T1Val
  | absent
  | score (q : ℚ)
deriving DecidableEq

structure MarksLineData where
  t1 : T1Val
  grade : String
deriving DecidableEq

/-- Embedding of `part.split('/', 1)[0]` (used only when `'/' in part`). -/
def numeratorOf (p : List Char) : List Char :=
  p.takeWhile (fun c => c ≠ '/')

/-- Embedding of `float(obtained.strip()) if obtained.strip() else 0`; `none` models the
`ValueError` the surrounding `try` turns into a `None` result. -/
def parseT1 (s : List Char) : Option ℚ :=
  let s' := pyStripL s
  if s'.isEmpty then some 0 else pyFloat s'

/-- Indexing helper `(parts.get? i).getD []`; used only under a length guard. -/
def partAt (parts : List (List Char)) (i : Nat) : List Char :=
  (parts.get? i).getD []

/-- Embedding of `JIITChecker._parse_marks_line`.  Branch order as in the source: the
absent form `"A <x>/<y>"`, then a `B`/`C`/`D`/`F` letter grade followed by an
`obtained/total` token (an unparsable numerator raises and yields `None`),
then the first `/`-containing token's numerator, else no result. -/
def parseMarksLine (line : String) : Option MarksLineData :=
  let cs := pyStripL line.data
  let parts := pySplit cs
  if pyStartsWith cs ['A', ' '] && decide (parts.length ≥ 2) &&
      decide ('/' ∈ partAt parts 1) then
    some ⟨.absent, ""⟩
  else if (pyStartsWith cs ['B'] || pyStartsWith cs ['C'] ||
      pyStartsWith cs ['D'] || pyStartsWith cs ['F']) &&
      decide (parts.length ≥ 2) && decide ('/' ∈ partAt parts 1) then
    match parseT1 (numeratorOf (partAt parts 1)) with
    | some q => some ⟨.score q, String.mk (partAt parts 0)⟩
    | none => none
  else if decide ('/' ∈ cs) then
    match parts.filter (fun p => decide ('/' ∈ p)) with
    | [] => none
    | mp :: _ =>
      match parseT1 (numeratorOf mp) with
      | some q => some ⟨.score q, ""⟩
      | none => none
  else none

/-- The fixed boilerplate prefixes of lines 904-914. -/
def boilerplatePrefixes : List String :=
  ["(", "Page", "Jaypee", "Subject", "Name:", "Registration", "Legend",
    "OM/FM", "Thu", "A-10", "Noida"]

/-- The subject-name-line test of lines 903-916. -/
def isSubjectNameLine (line : List Char) : Bool :=
  !line.isEmpty &&
  boilerplatePrefixes.all (fun p => !pyStartsWith line p.data) &&
  (line.take 10).all (fun c => !c.isDigit) &&
  decide (line.length > 10)

/-- A value of the `subjects` dict `_extract_marks_from_pdf` builds. -/
structure PdfEntry where
  subject_code : String
  t1 : T1Val
  grade : String
  marks_line : String
deriving DecidableEq

/-- The scanner loop of lines 898-945: a subject-name line consumes the next
line as its marks line; on a parse the optional `(code)` line is attached and
the cursor advances past all three lines, otherwise it advances by one. -/
def scanPdfLines : List String → List (String × PdfEntry) → List (String × PdfEntry)
  | [], acc => acc
  | [_], acc => acc
  | l :: m :: rest2, acc =>
    let line := pyStripL l.data
    if isSubjectNameLine line then
      match parseMarksLine m with
      | some md =>
        match rest2 with
        | [] =>
          pyDictInsert acc (String.mk line) ⟨"", md.t1, md.grade, pyStrip m⟩
        | c :: rest3 =>
          let cl := pyStripL c.data
          let codeStr :=
            if pyStartsWith cl ['('] && cl.getLast? = some ')' then
              String.mk ((cl.drop 1).dropLast)
            else ""
          scanPdfLines rest3
            (pyDictInsert acc (String.mk line) ⟨codeStr, md.t1, md.grade, pyStrip m⟩)
      | none => scanPdfLines (m :: rest2) acc
    else scanPdfLines (m :: rest2) acc

/-- Outcome of the page-by-page text extraction inside
`_extract_marks_from_pdf`: `failure` is any internal exception (caught on
line 950, yielding `{}`), `text` the concatenated page text split on
newlines. -/
inductive PdfTextOutcome
  | failure
  | text (ls : List String)
deriving DecidableEq

/-- Embedding of `JIITChecker._extract_marks_from_pdf` as a function of the text-extraction
outcome. -/
def extractMarksFromPdf : PdfTextOutcome → List (String × PdfEntry)
  | .failure => []
  | .text ls => scanPdfLines ls []

/-- Outcome of `webportal.download_marks` inside the PDF fallback of
`fetch_marks_for_semester` (lines 740-756): the call raised (caught on
line 754), returned falsy bytes, or returned a PDF whose text extraction has
the given outcome. -/
inductive PdfDownloadOutcome
  | downloadError
  | emptyPdf
  | pdf (content : PdfTextOutcome)
deriving DecidableEq

/-- A row of the structured grade-card response (`subject_name` and
`internal_marks` are the only attributes lines 725-731 read). -/
structure GradeCardRow where
  subject_name : String
  internal_marks : ℚ
deriving DecidableEq

/-- A value of a per-semester `marks_data['subjects']` dict: the API shape
`{'t1': internal_marks, 'grade': ''}` or a PDF-extracted entry. -/
inductive MarksSubjectVal
  | api (t1 : ℚ)
  | pdfEntry (e : PdfEntry)
deriving DecidableEq

/-- The API pass of lines 724-731. -/
def apiSubjectsOf (rows : List GradeCardRow) : List (String × MarksSubjectVal) :=
  rows.foldl (fun m r => pyDictInsert m r.subject_name (.api r.internal_marks)) []

/-- The `subjects` map `fetch_marks_for_semester` ends up with (lines 718-756):
grade-card rows if any (`gradecard = none` models a `None` or
`'gradecard'`-less response), else the PDF fallback, where every failure mode
degrades to the empty map.  Assigning an empty `pdf_subjects` and keeping the
initial `{}` coincide, as in the source. -/
def semesterSubjects (gradecard : Option (List GradeCardRow))
    (pdf : PdfDownloadOutcome) : List (String × MarksSubjectVal) :=
  let apiSubs := apiSubjectsOf (gradecard.getD [])
  if apiSubs.isEmpty then
    match pdf with
    | .downloadError => []
    | .emptyPdf => []
    | .pdf content =>
      (extractMarksFromPdf content).map (fun nv => (nv.1, MarksSubjectVal.pdfEntry nv.2))
  else apiSubs

/-!
### The marks cache (`fetch_marks` / `fetch_marks_for_semester`)

`fetch_marks` (lines 271-356) stores its freshly built `marks_data` dict both
in `self.marks_data` and — the same object — under the cache key
`'latest_marks'` (lines 346-347), and on a cache hit returns
`self.marks_data` (line 275).  `fetch_marks_for_semester` (lines 598-770)
mutates that same dict in place via `self.marks_data[semester] = marks_data`
(line 760).  `MarksDict` models the dict's contents: the latest-marks fields
(absent for the initial `{}`) plus any per-semester keys added by line 760;
since the cached object and `self.marks_data` are one object, the state keeps
a single copy.  The upstream fetching (retries, semester resolution, grade
card, PDF fallback) is collapsed into the `fresh` oracle arguments: the
embedding covers the success path, which is all the cache behaviour needs.
-/

/-- The latest-marks fields `fetch_marks` writes (lines 310-316 and 332-342);
each subject maps to its `(internal, external, total)` marks.  The wall-clock
`last_updated` is not modelled. -/
structure LatestBase where
  subjects : List (String × (ℚ × ℚ × ℚ))
  sgpa : ℚ
  cgpa : ℚ
  gpa : ℚ
deriving DecidableEq

/-- The per-semester `marks_data` dict of `fetch_marks_for_semester`
(lines 718-722). -/
structure SemesterMarksData where
  subjects : List (String × MarksSubjectVal)
  semester : String
deriving DecidableEq

/-- The contents of the (single, shared) `self.marks_data` dict. -/
structure MarksDict where
  latest : Option LatestBase
  extra : List (String × SemesterMarksData)
deriving DecidableEq

/-- The mutable state the two operations touch. -/
structure MarksCacheState where
  marksData : MarksDict
  latestExpiry : Option ℚ
  semExpiry : List (String × ℚ)
  semCache : List (String × SemesterMarksData)
deriving DecidableEq

/-- The initial state (`__init__`): empty `marks_data`, empty caches. -/
def MarksCacheState.init : MarksCacheState := ⟨⟨none, []⟩, none, [], []⟩

/-- Embedding of `_is_cache_valid`: the key has an expiry and `now` is before it. -/
def cacheValidAt (expiry : Option ℚ) (now : ℚ) : Bool :=
  match expiry with
  | none => false
  | some t => decide (now < t)

/-- Embedding of `fetch_marks`: on a valid `'latest_marks'` entry return `self.marks_data`
(line 275); otherwise build the fresh dict, store it as `self.marks_data` and
cache it under `'latest_marks'` with TTL `cache_duration = 300`. -/
def fetchMarksOp (st : MarksCacheState) (now : ℚ) (fresh : LatestBase) :
    MarksDict × MarksCacheState :=
  if cacheValidAt st.latestExpiry now then (st.marksData, st)
  else
    let d : MarksDict := { latest := some fresh, extra := [] }
    (d, { st with marksData := d, latestExpiry := some (now + 300) })

/-- Embedding of `fetch_marks_for_semester`: on a valid `marks_semester_<label>` entry
return the cached value (lines 603-605); otherwise add the freshly built
per-semester dict under the semester key of `self.marks_data` (line 760) and
cache it (line 761). -/
def fetchMarksForSemesterOp (st : MarksCacheState) (now : ℚ) (sem : String)
    (fresh : SemesterMarksData) : Option SemesterMarksData × MarksCacheState :=
  let key := "marks_semester_" ++ sem
  if cacheValidAt (pyDictLookup st.semExpiry key) now then
    (pyDictLookup st.semCache key, st)
  else
    (some fresh,
      { marksData :=
          { st.marksData with extra := pyDictInsert st.marksData.extra sem fresh }
        latestExpiry := st.latestExpiry
        semExpiry := pyDictInsert st.semExpiry key (now + 300)
        semCache := pyDictInsert st.semCache key fresh })

/-!
### Change detection (`JIITChecker.check_for_changes`, lines 792-836)

The three fetches are oracle `Except` arguments (ordered: attendance, marks,
notices — a failure of an earlier one means the later ones never run, and the
`except` clause on lines 834-836 logs and re-raises).  `last_attendance_data`
and `last_marks_data` start as the falsy `{}` (`none` here) and otherwise hold
full snapshots, so the `if self.last_...:` truthiness tests become `Option`
matches.  The threshold is the successfully parsed
`float(os.getenv('ATTENDANCE_THRESHOLD', 75))`.
-/

/-- The fields of a `fetch_marks` result that `check_for_changes` reads
(`current_marks['cgpa']`; a returned marks dict always carries `cgpa`). -/
structure MarksResult where
  cgpa : ℚ
  sgpa : ℚ
deriving DecidableEq

structure Notice where
  id : String
deriving DecidableEq

/-- An exception propagating out of one of the three fetches. -/
structure FetchErr where
  msg : String
deriving DecidableEq

structure ChangesReport where
  attendance_changed : Bool
  marks_changed : Bool
  new_notices : List Notice
  attendance_below_threshold : Bool
  current_attendance : AttendanceSnapshot
  current_marks : MarksResult
  current_notices : List Notice
deriving DecidableEq

/-- The `last_attendance_data` / `last_marks_data` / `last_notices` fields. -/
structure LastState where
  last_attendance_data : Option AttendanceSnapshot
  last_marks_data : Option MarksResult
  last_notices : List Notice
deriving DecidableEq

/-- The comparison part of `check_for_changes` (lines 809-829), given the
three fetch results. -/
def computeChanges (st : LastState) (att : AttendanceSnapshot)
    (marks : MarksResult) (notices : List Notice) (threshold : ℚ) :
    ChangesReport :=
  { attendance_changed :=
      match st.last_attendance_data with
      | none => false
      | some prev => decide (att.attendance_percentage ≠ prev.attendance_percentage)
    marks_changed :=
      match st.last_marks_data with
      | none => false
      | some prev => decide (marks.cgpa ≠ prev.cgpa)
    new_notices :=
      notices.filter (fun n => !st.last_notices.any (fun p => p.id = n.id))
    attendance_below_threshold := decide (att.attendance_percentage < threshold)
    current_attendance := att
    current_marks := marks
    current_notices := notices }

/-- Embedding of `check_for_changes`: sequence the three fetches, compare, then — only
after everything succeeded — replace the three stored snapshots
(lines 830-832).  The returned `LastState` is the state after the call; on an
exception it is the unchanged input state. -/
def checkForChanges (st : LastState)
    (attR : Except FetchErr AttendanceSnapshot)
    (marksR : Except FetchErr MarksResult)
    (noticesR : Except FetchErr (List Notice))
    (threshold : ℚ) : Except FetchErr ChangesReport × LastState :=
  match attR with
  | .error e => (.error e, st)
  | .ok att =>
    match marksR with
    | .error e => (.error e, st)
    | .ok marks =>
      match noticesR with
      | .error e => (.error e, st)
      | .ok notices =>
        (.ok (computeChanges st att marks notices threshold),
          { last_attendance_data := some att
            last_marks_data := some marks
            last_notices := notices })

/-!
### Claim-side auxiliary definitions and concrete sample inputs
-/

/-- The class total a subject entry reports in the returned map. -/
def SubjectEntry.totalOf : SubjectEntry → Nat
  | .basic b => b.total
  | .detailed t _ _ _ _ _ _ => t

/-- The attended count a subject entry reports in the returned map. -/
def SubjectEntry.attendedOf : SubjectEntry → Nat
  | .basic b => b.attended
  | .detailed _ a _ _ _ _ _ => a

/-- The percentage a subject entry reports in the returned map. -/
def SubjectEntry.percentageOf : SubjectEntry → ℚ
  | .basic b => b.percentage
  | .detailed _ _ _ p _ _ _ => p

/-- The `(total, attended)` contribution an entry actually makes to the
running overall counters in the enhancement loop: a basic entry with an empty
`subject_id` contributes nothing (the `continue` on line 220). -/
def entryCounts : SubjectEntry → Nat × Nat
  | .basic b => if b.subject_id = "" then (0, 0) else (b.total, b.attended)
  | .detailed t a _ _ _ _ _ => (t, a)

/-- Summed `entryCounts` over a subjects map. -/
def countedTotals (subs : List (String × SubjectEntry)) : Nat × Nat :=
  subs.foldl (fun c kv => (c.1 + (entryCounts kv.2).1, c.2 + (entryCounts kv.2).2))
    (0, 0)

/-- The claim's reading: summed `(total, attended)` over every entry of the
returned subjects map. -/
def mapTotals (subs : List (String × SubjectEntry)) : Nat × Nat :=
  subs.foldl (fun c kv => (c.1 + kv.2.totalOf, c.2 + kv.2.attendedOf)) (0, 0)

/-- The overall percentage the claim asserts: `Σattended / Σtotal * 100`
across all subjects of the returned map, `0` when there are no classes. -/
def specOverallOf (subs : List (String × SubjectEntry)) : ℚ :=
  if 0 < (mapTotals subs).1 then
    ((mapTotals subs).2 : ℚ) / ((mapTotals subs).1 : ℚ) * 100
  else 0

/-- The failure modes of the per-subject detailed call that the enhancement
loop swallows: the call returned `None` (payload error, non-200 response,
request exception), a response whose status is not `Success`, or an empty
per-lecture list. -/
def detailFails : Option DetailResponse → Prop
  | none => True
  | some d => d.responseStatus ≠ "Success" ∨ d.studentAttdsummarylist = []

/-- The all-failures detailed-attendance oracle. -/
def noDetail : String → Option DetailResponse := fun _ => none

/-- Sample record: 40 lecture classes, 30 attended, a non-empty subject id. -/
def rSample40 : RawSubjectRecord :=
  { RawSubjectRecord.zero with
    subjectcode := some "MATHS-101"
    Ltotalclass := 40
    Ltotalpres := 30
    subjectid := "SID40" }

/-- Sample record: no classes in any component. -/
def rSampleZero : RawSubjectRecord :=
  { RawSubjectRecord.zero with subjectcode := some "EMPTY-SUBJ" }

/-- Sample record: 40 lecture classes, 30 attended, `subjectid` empty. -/
def rSample40NoId : RawSubjectRecord :=
  { RawSubjectRecord.zero with
    subjectcode := some "MATHS-101"
    Ltotalclass := 40
    Ltotalpres := 30 }

/-- Sample record: only the practical percentage field is populated (the
combined LTP field is `0`), with 5 of 10 lecture classes attended. -/
def rPractical : RawSubjectRecord :=
  { RawSubjectRecord.zero with
    subjectcode := some "PHY"
    Ltotalclass := 10
    Ltotalpres := 5
    Ppercentage := 80
    subjectid := "S2" }

/-- Sample latest-marks snapshot for the cache trace. -/
def sampleLatest : LatestBase := ⟨[("OS", (10, 20, 30))], 8, 9, 9⟩

/-- Sample per-semester marks snapshot for the cache trace. -/
def samplePerSem : SemesterMarksData := ⟨[("OS", .api 5)], "Odd 2024"⟩

/-- Sample record: 20 lecture classes, 10 attended, a non-empty subject id;
used as the subject whose detailed call succeeds in a mixed run. -/
def rDetailed20 : RawSubjectRecord :=
  { RawSubjectRecord.zero with
    subjectcode := some "CHEM-101"
    Ltotalclass := 20
    Ltotalpres := 10
    subjectid := "SIDC" }

/-- A mixed detailed-attendance oracle: the call succeeds (status `Success`,
two lectures of which one `Present`) for `"CHEM-101"` and fails (returns
`None`) for every other subject. -/
def mixedDetail : String → Option DetailResponse := fun n =>
  if n = "CHEM-101" then some ⟨"Success", ["Present", "Absent"]⟩ else none

/-!
### Association-list dictionary lemmas
-/

@[simp]
lemma dictKeys_nil {α : Type} : dictKeys ([] : List (String × α)) = [] := rfl

@[simp]
lemma dictKeys_cons {α : Type} (k : String) (v : α) (t : List (String × α)) :
    dictKeys ((k, v) :: t) = k :: dictKeys t := rfl

lemma pyDictLookup_eq_none {α : Type} {m : List (String × α)} {k : String} :
    pyDictLookup m k = none ↔ k ∉ dictKeys m := by
  induction m with
  | nil => simp [pyDictLookup]
  | cons kv t ih =>
    obtain ⟨k', v⟩ := kv
    by_cases h : k' = k
    · simp [pyDictLookup, h]
    · simp [pyDictLookup, h, ih, Ne.symm h]

lemma mem_dictKeys_pyDictInsert {α : Type} {m : List (String × α)}
    {k x : String} {v : α} :
    x ∈ dictKeys (pyDictInsert m k v) ↔ x ∈ dictKeys m ∨ x = k := by
  induction m with
  | nil => simp [pyDictInsert]
  | cons kv t ih =>
    obtain ⟨k', v'⟩ := kv
    by_cases h : k' = k <;> simp [pyDictInsert, h, ih] <;> tauto

lemma pyDictInsert_eq_append {α : Type} {m : List (String × α)} {k : String}
    (v : α) (h : k ∉ dictKeys m) : pyDictInsert m k v = m ++ [(k, v)] := by
  induction m with
  | nil => simp [pyDictInsert]
  | cons kv t ih =>
    obtain ⟨k', v'⟩ := kv
    simp only [dictKeys_cons, List.mem_cons, not_or] at h
    simp [pyDictInsert, Ne.symm h.1, ih h.2]

lemma dictKeys_nodup_pyDictInsert {α : Type} {m : List (String × α)}
    (k : String) (v : α) (h : (dictKeys m).Nodup) :
    (dictKeys (pyDictInsert m k v)).Nodup := by
  induction m with
  | nil => simp [pyDictInsert]
  | cons kv t ih =>
    obtain ⟨k', v'⟩ := kv
    simp only [dictKeys_cons, List.nodup_cons] at h
    by_cases hk : k' = k
    · simpa [pyDictInsert, hk] using h
    · have ht := ih h.2
      simp only [pyDictInsert, hk, if_false, dictKeys_cons, List.nodup_cons]
      refine ⟨fun hx => ?_, ht⟩
      rcases mem_dictKeys_pyDictInsert.mp hx with hx | hx
      · exact h.1 hx
      · exact hk hx

lemma pyDictLookup_append_of_not_mem {α : Type} {m : List (String × α)}
    {k : String} (l : List (String × α)) (h : k ∉ dictKeys m) :
    pyDictLookup (m ++ l) k = pyDictLookup l k := by
  induction m with
  | nil => simp
  | cons kv t ih =>
    obtain ⟨k', v'⟩ := kv
    simp only [dictKeys_cons, List.mem_cons, not_or] at h
    simp [pyDictLookup, Ne.symm h.1, ih h.2]

lemma pyDictLookup_pyDictInsert_self {α : Type} {m : List (String × α)}
    {k : String} (v : α) : pyDictLookup (pyDictInsert m k v) k = some v := by
  induction m with
  | nil => simp [pyDictInsert, pyDictLookup]
  | cons kv t ih =>
    obtain ⟨k', v'⟩ := kv
    by_cases h : k' = k <;> simp [pyDictInsert, pyDictLookup, h, ih]

/-!
### String-helper lemmas
-/

lemma mem_pyStripL {x : Char} {cs : List Char} (h : x ∈ pyStripL cs) : x ∈ cs := by
  unfold pyStripL at h
  rw [List.mem_reverse] at h
  have h1 := (List.dropWhile_sublist
    (l := (cs.dropWhile isPySpace).reverse) (p := isPySpace)).subset h
  rw [List.mem_reverse] at h1
  exact (List.dropWhile_sublist (l := cs) (p := isPySpace)).subset h1

lemma mem_of_mem_pySplitAux {t : List Char} {cs cur : List Char}
    (ht : t ∈ pySplitAux cs cur) {x : Char} (hx : x ∈ t) : x ∈ cs ∨ x ∈ cur := by
  induction cs generalizing cur with
  | nil =>
    unfold pySplitAux at ht
    by_cases hc : cur.isEmpty <;> simp [hc] at ht
    subst ht
    exact Or.inr (List.mem_reverse.mp hx)
  | cons c rest ih =>
    unfold pySplitAux at ht
    by_cases hsp : isPySpace c
    · rw [if_pos hsp] at ht
      by_cases hc : cur.isEmpty
      · rw [if_pos hc] at ht
        rcases ih ht with h1 | h1
        · exact Or.inl (List.mem_cons_of_mem _ h1)
        · simp at h1
      · rw [if_neg hc] at ht
        rcases List.mem_cons.mp ht with rfl | ht2
        · exact Or.inr (List.mem_reverse.mp hx)
        · rcases ih ht2 with h1 | h1
          · exact Or.inl (List.mem_cons_of_mem _ h1)
          · simp at h1
    · rw [if_neg hsp] at ht
      rcases ih ht with h1 | h1
      · exact Or.inl (List.mem_cons_of_mem _ h1)
      · rcases List.mem_cons.mp h1 with rfl | h2
        · exact Or.inl (List.mem_cons_self _ _)
        · exact Or.inr h2

lemma mem_of_mem_pySplit {t : List Char} {cs : List Char} (ht : t ∈ pySplit cs)
    {x : Char} (hx : x ∈ t) : x ∈ cs := by
  rcases mem_of_mem_pySplitAux ht hx with h | h
  · exact h
  · simp at h

/-!
### C3 — semester display-name derivation
-/

/-- C3 (counterexample): for the semester name `"Sem (ODD24)"` the display
name built by `fetch_marks_semesters` is `"Odd 2024"` while the one
`download_marks` recomputes for the same object is `"Odd Semester"` — the two
derivations the claim requires to agree bit-for-bit differ. -/
theorem C3_counterexample :
    fmsDisplay "Sem (ODD24)" "" = "Odd 2024"
    ∧ dmDisplay "Sem (ODD24)" "" = "Odd Semester"
    ∧ fmsDisplay "Sem (ODD24)" "" ≠ dmDisplay "Sem (ODD24)" "" := by
  refine ⟨by decide, by decide, by decide⟩

/-- C3 (amended): the display-name derivation is a pure function of
`(semester_name, registration_code)`, and the derivation used to build the
semester list (`fetch_marks_semesters`) agrees bit-for-bit with the one
`fetch_marks_for_semester` uses to resolve a selected label, for every
semester whose raw name is non-empty; `download_marks` recomputes the name
with a simpler year rule (4-digit registration-code years only) and can
disagree. -/
theorem C3_display_name_agreement (name attr : String) (h : name ≠ "") :
    fmsDisplay name attr = fmfsDisplay name attr := by
  unfold fmsDisplay fmfsDisplay
  split_ifs
  all_goals simp [h]

/-- Witness for `C3_display_name_agreement` at a concrete semester. -/
theorem C3_display_name_agreement_witness :
    "Sem (ODD24)" ≠ "" ∧ fmsDisplay "Sem (ODD24)" "" = fmfsDisplay "Sem (ODD24)" "" :=
  ⟨by decide, C3_display_name_agreement "Sem (ODD24)" "" (by decide)⟩

/-!
### C5 — marks-line parsing
-/

/-- C5: the marks-line parser maps `"A 0.0/20.0"` to the absent marker with
empty grade, `"B 15.0/20.0"` to `t1 = 15.0` with grade `"B"`,
`"1.5/ 20 1.5/20.0"` to `t1 = 1.5` with empty grade, and yields no result for
any line containing no `'/'`. -/
theorem C5_parse_marks_line :
    parseMarksLine "A 0.0/20.0" = some ⟨.absent, ""⟩
    ∧ parseMarksLine "B 15.0/20.0" = some ⟨.score 15, "B"⟩
    ∧ parseMarksLine "1.5/ 20 1.5/20.0" = some ⟨.score (3 / 2), ""⟩
    ∧ ∀ line : String, '/' ∉ line.data → parseMarksLine line = none := by
  refine ⟨by decide, by decide, ?_, ?_⟩
  · have h : parseMarksLine "1.5/ 20 1.5/20.0" = some ⟨.score (mkRat 3 2), ""⟩ := by
      decide
    rw [h, Rat.mkRat_eq_div]
    norm_num
  · intro line h
    unfold parseMarksLine
    have hcs : '/' ∉ pyStripL line.data := fun hx => h (mem_pyStripL hx)
    have hpart : ∀ i, '/' ∉ partAt (pySplit (pyStripL line.data)) i := by
      intro i hx
      unfold partAt at hx
      cases hp : (pySplit (pyStripL line.data)).get? i with
      | none => rw [hp] at hx; simp at hx
      | some p =>
        rw [hp] at hx
        simp at hx
        exact hcs (mem_of_mem_pySplit (List.get?_mem hp) hx)
    simp [hpart 1, hcs]

/-- Witness for `C5_parse_marks_line` on a concrete slash-free line. -/
theorem C5_parse_marks_line_witness :
    '/' ∉ "Total marks 42 of 100".data
    ∧ parseMarksLine "Total marks 42 of 100" = none :=
  ⟨by decide, C5_parse_marks_line.2.2.2 "Total marks 42 of 100" (by decide)⟩

/-!
### C1 / C2 / C4 — attendance aggregation
-/

lemma dictKeys_append {α : Type} (m l : List (String × α)) :
    dictKeys (m ++ l) = dictKeys m ++ dictKeys l := by
  simp [dictKeys]

/-- Every iteration of the enhancement loop inserts exactly one entry under
the subject's key and advances the overall counters by that entry's
`entryCounts`. -/
lemma enhanceStep_shape (detail : String → Option DetailResponse)
    (acc : EnhanceAcc) (kv : String × BasicData) :
    ∃ e : SubjectEntry,
      enhanceStep detail acc kv =
        ⟨pyDictInsert acc.subjects kv.1 e,
          acc.total_classes + (entryCounts e).1,
          acc.total_attended + (entryCounts e).2⟩ := by
  unfold enhanceStep
  by_cases hid : kv.2.subject_id = ""
  · exact ⟨.basic kv.2, by simp [hid, entryCounts]⟩
  · cases hd : detail kv.1 with
    | none => exact ⟨.basic kv.2, by simp [hid, hd, entryCounts]⟩
    | some d =>
      by_cases hs : d.responseStatus = "Success"
      · by_cases he : d.studentAttdsummarylist.isEmpty
        · exact ⟨.basic kv.2, by simp [hid, hd, hs, he, entryCounts]⟩
        · refine ⟨.detailed d.studentAttdsummarylist.length
            (d.studentAttdsummarylist.filter (fun s => s = "Present")).length
            (d.studentAttdsummarylist.length -
              (d.studentAttdsummarylist.filter (fun s => s = "Present")).length)
            (if d.studentAttdsummarylist.length > 0 then
              ((d.studentAttdsummarylist.filter (fun s => s = "Present")).length : ℚ) /
                (d.studentAttdsummarylist.length : ℚ) * 100
             else 0)
            kv.2.subject_id kv.2.individual_subject_code
            d.studentAttdsummarylist, ?_⟩
          simp [hid, hd, hs, he, entryCounts]
      · exact ⟨.basic kv.2, by simp [hid, hd, hs, entryCounts]⟩

lemma countedTotals_append (subs : List (String × SubjectEntry)) (k : String)
    (e : SubjectEntry) :
    countedTotals (subs ++ [(k, e)]) =
      ((countedTotals subs).1 + (entryCounts e).1,
        (countedTotals subs).2 + (entryCounts e).2) := by
  unfold countedTotals
  rw [List.foldl_append]
  rfl

/-- Fold invariant: over basic subjects with distinct keys, the overall
counters of the enhancement loop equal the summed `entryCounts` of the
produced subjects map. -/
lemma enhance_fold_invariant (detail : String → Option DetailResponse)
    (bs : List (String × BasicData)) :
    ∀ acc : EnhanceAcc, (dictKeys bs).Nodup →
      (∀ kv ∈ bs, kv.1 ∉ dictKeys acc.subjects) →
      countedTotals acc.subjects = (acc.total_classes, acc.total_attended) →
      countedTotals (bs.foldl (enhanceStep detail) acc).subjects =
        ((bs.foldl (enhanceStep detail) acc).total_classes,
          (bs.foldl (enhanceStep detail) acc).total_attended) := by
  induction bs with
  | nil => intro acc _ _ hacc; simpa using hacc
  | cons kv tl ih =>
    intro acc hnd hfresh hacc
    rw [List.foldl_cons]
    obtain ⟨e, he⟩ := enhanceStep_shape detail acc kv
    have hk : kv.1 ∉ dictKeys acc.subjects := hfresh kv (List.mem_cons_self _ _)
    have hins : pyDictInsert acc.subjects kv.1 e = acc.subjects ++ [(kv.1, e)] :=
      pyDictInsert_eq_append e hk
    have hnd' : (dictKeys tl).Nodup := by
      have h0 : dictKeys (kv :: tl) = kv.1 :: dictKeys tl := by simp [dictKeys]
      rw [h0] at hnd
      exact hnd.of_cons
    have hhead : kv.1 ∉ dictKeys tl := by
      have h0 : dictKeys (kv :: tl) = kv.1 :: dictKeys tl := by simp [dictKeys]
      rw [h0] at hnd
      exact (List.nodup_cons.mp hnd).1
    apply ih
    · exact hnd'
    · intro kv2 h2
      rw [he]
      simp only [hins, dictKeys_append]
      simp only [List.mem_append]
      rintro (hmem | hmem)
      · exact hfresh kv2 (List.mem_cons_of_mem _ h2) hmem
      · simp [dictKeys] at hmem
        exact hhead (hmem ▸ List.mem_map_of_mem Prod.fst h2)
    · rw [he]
      simp only [hins, countedTotals_append, hacc]

lemma basicsFold_keys_nodup (records : List RawSubjectRecord) :
    ∀ m : List (String × BasicData), (dictKeys m).Nodup →
      (dictKeys (records.foldl
        (fun m r =>
          match basicSubjectOfRecord r with
          | none => m
          | some (k, v) => pyDictInsert m k v) m)).Nodup := by
  induction records with
  | nil => intro m hm; simpa using hm
  | cons r tl ih =>
    intro m hm
    rw [List.foldl_cons]
    cases hb : basicSubjectOfRecord r with
    | none => exact ih m (by simpa [hb] using hm)
    | some kv =>
      obtain ⟨k, v⟩ := kv
      simp only [hb]
      exact ih _ (dictKeys_nodup_pyDictInsert k v hm)

lemma basicSubjectsOf_keys_nodup (records : List RawSubjectRecord) :
    (dictKeys (basicSubjectsOf records)).Nodup := by
  unfold basicSubjectsOf
  exact basicsFold_keys_nodup records [] (by simp)

/-- C1 (counterexample): for a record whose combined-LTP percentage field is
`0` but whose practical percentage field is `80` (with 5 of 10 lecture
classes attended), the current `fetch_attendance` reports percentage
`5/10·100 = 50`, while the claimed five-level priority selects the practical
field's `80` — the claim's priority (2) is not applied by the current code. -/
theorem C1_counterexample :
    (pyDictLookup (fetchAttendance [rPractical] noDetail).subjects "PHY").map
        SubjectEntry.percentageOf = some 50
    ∧ specPriorityPercentage rPractical.LTpercantage rPractical.Ppercentage
        rPractical.Lpercentage rPractical.Tpercentage rPractical.subjectPresent
        rPractical.subjectTotal = 80
    ∧ (50 : ℚ) ≠ 80 := by
  refine ⟨?_, rfl, by norm_num⟩
  have h : (pyDictLookup (fetchAttendance [rPractical] noDetail).subjects "PHY").map
      SubjectEntry.percentageOf = some ((5 : ℚ) / 10 * 100) := rfl
  rw [h]
  norm_num

/-- C1 (amended): the five-level percentage priority (combined LTP field,
then practical, lecture, tutorial percentage, else `present/total·100`) is
implemented by the legacy top-level `fetch_attendance`; the current
(`src/src`) `fetch_attendance` applies only priorities (1) and (5) — it
equals the spec priority with the practical/lecture/tutorial fields taken as
`0`.  (In `ℚ`, `present / 0 · 100 = 0`, matching the legacy guard.) -/
theorem C1_percentage_priority :
    (∀ r : RawSubjectRecord,
      (legacyEntryOfRecord r).percentage =
        specPriorityPercentage r.LTpercantage r.Ppercentage r.Lpercentage
          r.Tpercentage r.legacyPresent r.legacyTotal)
    ∧ (∀ (r : RawSubjectRecord) (k : String) (b : BasicData),
        basicSubjectOfRecord r = some (k, b) →
        b.percentage =
          specPriorityPercentage r.LTpercantage 0 0 0 r.subjectPresent
            r.subjectTotal) := by
  constructor
  · intro r
    unfold legacyEntryOfRecord specPriorityPercentage
    split_ifs <;>
      first
        | rfl
        | (have h0 : r.legacyTotal = 0 := by omega
           simp [h0])
  · intro r k b hb
    by_cases ht : r.subjectTotal = 0
    · simp [basicSubjectOfRecord, ht] at hb
    · simp [basicSubjectOfRecord, ht] at hb
      rw [← hb.2]
      unfold specPriorityPercentage
      split_ifs <;> simp_all

/-- Witness for `C1_percentage_priority` at the concrete 40/30 record. -/
theorem C1_percentage_priority_witness :
    basicSubjectOfRecord rSample40 =
      some ("MATHS-101", ⟨40, 30, (30 : ℚ) / 40 * 100, "SID40", "", "", "", ""⟩)
    ∧ (⟨40, 30, (30 : ℚ) / 40 * 100, "SID40", "", "", "", ""⟩ : BasicData).percentage =
        specPriorityPercentage rSample40.LTpercantage 0 0 0
          rSample40.subjectPresent rSample40.subjectTotal :=
  ⟨rfl, C1_percentage_priority.2 rSample40 "MATHS-101" _ rfl⟩

lemma mem_dictKeys_legacyFoldPersist (records : List RawSubjectRecord) :
    ∀ (acc : List (String × LegacyEntry) × Nat × Nat) (x : String),
      x ∈ dictKeys acc.1 → x ∈ dictKeys (records.foldl legacyStep acc).1 := by
  induction records with
  | nil => intro acc x hx; simpa using hx
  | cons r tl ih =>
    intro acc x hx
    rw [List.foldl_cons]
    exact ih _ x (mem_dictKeys_pyDictInsert.mpr (Or.inl hx))

lemma mem_dictKeys_legacyFold (records : List RawSubjectRecord) :
    ∀ (acc : List (String × LegacyEntry) × Nat × Nat) (r : RawSubjectRecord),
      r ∈ records →
      legacySubjectCode r ∈ dictKeys (records.foldl legacyStep acc).1 := by
  induction records with
  | nil => intro acc r hr; simp at hr
  | cons hd tl ih =>
    intro acc r hr
    rw [List.foldl_cons]
    rcases List.mem_cons.mp hr with rfl | hr2
    · exact mem_dictKeys_legacyFoldPersist tl _ _
        (mem_dictKeys_pyDictInsert.mpr (Or.inr rfl))
    · exact ih _ r hr2

lemma basicsFold_filter (records : List RawSubjectRecord) :
    ∀ m : List (String × BasicData),
      records.foldl
        (fun m r =>
          match basicSubjectOfRecord r with
          | none => m
          | some (k, v) => pyDictInsert m k v) m =
      (records.filter (fun r => decide (r.subjectTotal ≠ 0))).foldl
        (fun m r =>
          match basicSubjectOfRecord r with
          | none => m
          | some (k, v) => pyDictInsert m k v) m := by
  induction records with
  | nil => intro m; rfl
  | cons r tl ih =>
    intro m
    by_cases h : r.subjectTotal = 0
    · have hb : basicSubjectOfRecord r = none := by simp [basicSubjectOfRecord, h]
      simp [List.filter_cons, h, hb, ih]
    · simp [List.filter_cons, h, ih]

/-- C2 (counterexample): the all-zero record is a subject with summed total
`0`; the legacy `fetch_attendance` keeps it in the returned subjects map
(while the current revision drops it), so the claim's exclusion does not hold
of the legacy revision the claim also cites. -/
theorem C2_counterexample :
    rSampleZero.legacyTotal = 0
    ∧ pyDictLookup (legacyFetchAttendance [rSampleZero]).subjects "EMPTY-SUBJ" =
        some (legacyEntryOfRecord rSampleZero)
    ∧ pyDictLookup (fetchAttendance [rSampleZero] noDetail).subjects "EMPTY-SUBJ" =
        none := ⟨rfl, rfl, rfl⟩

/-- C2 (amended): in the current `fetch_attendance` a record with summed
total `0` produces no basic-subjects binding, and the whole fetch is
unchanged when such records are removed from the input (they contribute
neither a map entry nor overall counts); the legacy `fetch_attendance`
instead keys every record into its subjects map unconditionally. -/
theorem C2_zero_total_skip :
    (∀ r : RawSubjectRecord, r.subjectTotal = 0 → basicSubjectOfRecord r = none)
    ∧ (∀ (records : List RawSubjectRecord)
        (detail : String → Option DetailResponse),
        fetchAttendance records detail =
          fetchAttendance
            (records.filter (fun r => decide (r.subjectTotal ≠ 0))) detail)
    ∧ (∀ (records : List RawSubjectRecord) (r : RawSubjectRecord),
        r ∈ records →
        legacySubjectCode r ∈ dictKeys (legacyFetchAttendance records).subjects) := by
  refine ⟨?_, ?_, ?_⟩
  · intro r h
    simp [basicSubjectOfRecord, h]
  · intro records detail
    unfold fetchAttendance
    rw [show basicSubjectsOf records =
        basicSubjectsOf (records.filter (fun r => decide (r.subjectTotal ≠ 0))) from
      basicsFold_filter records []]
  · intro records r hr
    unfold legacyFetchAttendance
    exact mem_dictKeys_legacyFold records _ r hr

/-- Witness for `C2_zero_total_skip` at the concrete zero-total record. -/
theorem C2_zero_total_skip_witness :
    rSampleZero.subjectTotal = 0
    ∧ basicSubjectOfRecord rSampleZero = none
    ∧ legacySubjectCode rSampleZero ∈
        dictKeys (legacyFetchAttendance [rSampleZero]).subjects :=
  ⟨rfl, C2_zero_total_skip.1 rSampleZero rfl,
    C2_zero_total_skip.2.2 [rSampleZero] rSampleZero (List.mem_singleton.mpr rfl)⟩

/-- C4 (counterexample): for the response with one 40-class/30-attended
subject whose `subjectid` is empty plus one skipped zero-total subject, the
subjects map has exactly one entry whose summed counts give
`30/40·100 = 75`, yet `fetch_attendance` reports `overallPercentage = 0` —
the id-less subject is kept in the map but excluded from the overall sums by
the `continue` on line 220. -/
theorem C4_counterexample :
    (fetchAttendance [rSample40NoId, rSampleZero] noDetail).attendance_percentage = 0
    ∧ specOverallOf
        (fetchAttendance [rSample40NoId, rSampleZero] noDetail).subjects = 75
    ∧ (fetchAttendance [rSample40NoId, rSampleZero] noDetail).subjects.length = 1 := by
  refine ⟨rfl, ?_, rfl⟩
  have h : specOverallOf
      (fetchAttendance [rSample40NoId, rSampleZero] noDetail).subjects =
      (30 : ℚ) / 40 * 100 := rfl
  rw [h]
  norm_num

/-- C4 (amended): `fetch_attendance`'s overall percentage is
`Σattended / Σtotal · 100` (and `0` when that total is `0`) where the sums
range over the returned subjects map but count a basic entry only when its
`subject_id` is non-empty (`entryCounts`); for the claim's concrete response
— a 40/30 subject carrying a subject id whose detailed call fails, plus a
zero-total subject — the result is exactly `75` with one map entry. -/
theorem C4_overall_percentage :
    (∀ (records : List RawSubjectRecord)
      (detail : String → Option DetailResponse),
      (fetchAttendance records detail).attendance_percentage =
        (if 0 < (countedTotals (fetchAttendance records detail).subjects).1 then
          ((countedTotals (fetchAttendance records detail).subjects).2 : ℚ) /
            ((countedTotals (fetchAttendance records detail).subjects).1 : ℚ) * 100
         else 0))
    ∧ (fetchAttendance [rSample40, rSampleZero] noDetail).attendance_percentage = 75
    ∧ (fetchAttendance [rSample40, rSampleZero] noDetail).subjects.length = 1 := by
  refine ⟨?_, ?_, rfl⟩
  · intro records detail
    have hinv := enhance_fold_invariant detail (basicSubjectsOf records)
      ⟨[], 0, 0⟩ (basicSubjectsOf_keys_nodup records) (by simp) (by rfl)
    unfold fetchAttendance
    rw [hinv]
  · have h : (fetchAttendance [rSample40, rSampleZero] noDetail).attendance_percentage =
        (30 : ℚ) / 40 * 100 := rfl
    rw [h]
    norm_num

/-!
### C6 / C7 — best-effort fallbacks
-/

/-- C6: when the grade-card API yields zero subjects, the per-semester
subjects map is taken from the downloaded PDF; a failed download, falsy PDF
bytes, an internal extraction failure, or an extraction that finds nothing
all degrade to an empty subjects map — every outcome of the fallback is a
value, never a propagated error. -/
theorem C6_pdf_fallback :
    (∀ lines : List String,
      semesterSubjects none (.pdf (.text lines)) =
        (extractMarksFromPdf (.text lines)).map
          (fun nv => (nv.1, MarksSubjectVal.pdfEntry nv.2)))
    ∧ semesterSubjects none .downloadError = []
    ∧ semesterSubjects none .emptyPdf = []
    ∧ semesterSubjects none (.pdf .failure) = []
    ∧ (∀ lines : List String, scanPdfLines lines [] = [] →
        semesterSubjects none (.pdf (.text lines)) = [])
    ∧ (∀ o : PdfDownloadOutcome,
        semesterSubjects (some []) o = semesterSubjects none o) := by
  refine ⟨fun lines => rfl, rfl, rfl, rfl, ?_, ?_⟩
  · intro lines h
    simp [semesterSubjects, apiSubjectsOf, extractMarksFromPdf, h]
  · intro o
    cases o <;> rfl

/-- Witness for `C6_pdf_fallback` on a PDF whose text yields no subject. -/
theorem C6_pdf_fallback_witness :
    scanPdfLines ["short line"] [] = []
    ∧ semesterSubjects none (.pdf (.text ["short line"])) = [] :=
  ⟨by decide, C6_pdf_fallback.2.2.2.2.1 ["short line"] (by decide)⟩

lemma enhanceStep_of_detailFails (detail : String → Option DetailResponse)
    (acc : EnhanceAcc) (kv : String × BasicData)
    (h : detailFails (detail kv.1)) :
    enhanceStep detail acc kv = enhanceStep noDetail acc kv := by
  rcases hd : detail kv.1 with _ | d
  · unfold enhanceStep noDetail
    simp only [hd]
  · rw [hd] at h
    unfold detailFails at h
    unfold enhanceStep noDetail
    simp only [hd]
    rcases h with h | h
    · simp [h]
    · simp [h]

lemma enhanceFold_of_detailFails (detail : String → Option DetailResponse)
    (hall : ∀ n, detailFails (detail n)) (bs : List (String × BasicData)) :
    ∀ acc : EnhanceAcc,
      bs.foldl (enhanceStep detail) acc = bs.foldl (enhanceStep noDetail) acc := by
  induction bs with
  | nil => intro acc; rfl
  | cons kv tl ih =>
    intro acc
    rw [List.foldl_cons, List.foldl_cons,
      enhanceStep_of_detailFails detail acc kv (hall kv.1), ih]

lemma pyDictLookup_pyDictInsert_ne {α : Type} {m : List (String × α)}
    {k k' : String} (v : α) (h : k' ≠ k) :
    pyDictLookup (pyDictInsert m k' v) k = pyDictLookup m k := by
  induction m with
  | nil => simp [pyDictInsert, pyDictLookup, h]
  | cons kv t ih =>
    obtain ⟨k0, v0⟩ := kv
    by_cases h0 : k0 = k' <;> by_cases h1 : k0 = k <;>
      simp_all [pyDictInsert, pyDictLookup]

/-- Keys outside the remaining basic subjects are untouched by the rest of
the enhancement loop. -/
lemma enhanceFold_lookup_preserved (detail : String → Option DetailResponse)
    (bs : List (String × BasicData)) :
    ∀ (acc : EnhanceAcc) (k : String), k ∉ dictKeys bs →
      pyDictLookup (bs.foldl (enhanceStep detail) acc).subjects k =
        pyDictLookup acc.subjects k := by
  induction bs with
  | nil => intro acc k _; rfl
  | cons kv tl ih =>
    intro acc k hk
    have h0 : dictKeys (kv :: tl) = kv.1 :: dictKeys tl := by simp [dictKeys]
    rw [h0] at hk
    simp only [List.mem_cons, not_or] at hk
    rw [List.foldl_cons, ih _ k hk.2]
    obtain ⟨e, he⟩ := enhanceStep_shape detail acc kv
    rw [he]
    exact pyDictLookup_pyDictInsert_ne e (fun h => hk.1 h.symm)

/-- An iteration whose own detailed call fails stores the untouched basic
dict, whatever the oracle answers for other subjects. -/
lemma enhanceStep_subjects_of_detailFails (detail : String → Option DetailResponse)
    (acc : EnhanceAcc) (kv : String × BasicData)
    (h : detailFails (detail kv.1)) :
    (enhanceStep detail acc kv).subjects =
      pyDictInsert acc.subjects kv.1 (.basic kv.2) := by
  rw [enhanceStep_of_detailFails detail acc kv h]
  by_cases hid : kv.2.subject_id = "" <;> simp [enhanceStep, noDetail, hid]

/-- Per-subject degradation through the whole enhancement loop: under any
oracle, a basic subject whose own detailed call fails ends up in the final
subjects map as its untouched basic dict. -/
lemma enhanceFold_lookup_basic (detail : String → Option DetailResponse)
    (bs : List (String × BasicData)) :
    ∀ (acc : EnhanceAcc) (k : String) (b : BasicData),
      (dictKeys bs).Nodup →
      (∀ kv ∈ bs, kv.1 ∉ dictKeys acc.subjects) →
      pyDictLookup bs k = some b →
      detailFails (detail k) →
      pyDictLookup (bs.foldl (enhanceStep detail) acc).subjects k =
        some (.basic b) := by
  induction bs with
  | nil => intro acc k b _ _ hb _; simp [pyDictLookup] at hb
  | cons kv tl ih =>
    intro acc k b hnd0 hfresh hb hfail
    have h0 : dictKeys (kv :: tl) = kv.1 :: dictKeys tl := by simp [dictKeys]
    rw [h0] at hnd0
    rw [List.foldl_cons]
    obtain ⟨k1, v1⟩ := kv
    by_cases hkk : k1 = k
    · subst hkk
      have hb2 : v1 = b := by simpa [pyDictLookup] using hb
      subst hb2
      rw [enhanceFold_lookup_preserved detail tl _ k1
        (List.nodup_cons.mp hnd0).1]
      rw [enhanceStep_subjects_of_detailFails detail acc (k1, v1) hfail]
      exact pyDictLookup_pyDictInsert_self _
    · have hb2 : pyDictLookup tl k = some b := by
        simpa [pyDictLookup, hkk] using hb
      obtain ⟨e, he⟩ := enhanceStep_shape detail acc (k1, v1)
      apply ih
      · exact hnd0.of_cons
      · intro kv2 h2
        rw [he]
        have hkfresh : k1 ∉ dictKeys acc.subjects :=
          hfresh (k1, v1) (List.mem_cons_self _ _)
        rw [pyDictInsert_eq_append e hkfresh, dictKeys_append]
        simp only [List.mem_append]
        rintro (hm | hm)
        · exact hfresh kv2 (List.mem_cons_of_mem _ h2) hm
        · simp [dictKeys] at hm
          have hmem2 : kv2.1 ∈ dictKeys tl := List.mem_map_of_mem Prod.fst h2
          rw [hm] at hmem2
          exact (List.nodup_cons.mp hnd0).1 hmem2
      · exact hb2
      · exact hfail

/-- C7: for every subject and any detailed-attendance oracle — including
mixed runs where other subjects' calls succeed — a failure of that subject's
own detailed call (a `None` return from payload-generation error, non-200
response or request exception, or a response whose status is not `Success`,
or an empty per-lecture list) is swallowed: the subject appears in the
returned map as its untouched basic dict, keeping its basic aggregate
total/attended/percentage figures, and the fetch still produces a snapshot
(never fatal).  When every call fails, the whole fetch moreover equals the
fetch with the always-`None` oracle. -/
theorem C7_detail_failure_swallowed (records : List RawSubjectRecord)
    (detail : String → Option DetailResponse) :
    (∀ (k : String) (b : BasicData),
        pyDictLookup (basicSubjectsOf records) k = some b →
        detailFails (detail k) →
        pyDictLookup (fetchAttendance records detail).subjects k =
          some (.basic b))
    ∧ ((∀ n, detailFails (detail n)) →
        fetchAttendance records detail = fetchAttendance records noDetail) := by
  constructor
  · intro k b hb hfail
    have hsubj : (fetchAttendance records detail).subjects =
        ((basicSubjectsOf records).foldl (enhanceStep detail) ⟨[], 0, 0⟩).subjects :=
      rfl
    rw [hsubj]
    exact enhanceFold_lookup_basic detail (basicSubjectsOf records) ⟨[], 0, 0⟩ k b
      (basicSubjectsOf_keys_nodup records) (by simp) hb hfail
  · intro hall
    unfold fetchAttendance
    rw [enhanceFold_of_detailFails detail hall]

/-- Witness for `C7_detail_failure_swallowed` on a mixed run: under
`mixedDetail` the `"CHEM-101"` subject is enhanced with detailed figures
while `"MATHS-101"`, whose call returns `None`, keeps its basic aggregate
figures. -/
theorem C7_detail_failure_swallowed_witness :
    pyDictLookup (basicSubjectsOf [rSample40, rDetailed20]) "MATHS-101" =
      some ⟨40, 30, (30 : ℚ) / 40 * 100, "SID40", "", "", "", ""⟩
    ∧ detailFails (mixedDetail "MATHS-101")
    ∧ pyDictLookup
        (fetchAttendance [rSample40, rDetailed20] mixedDetail).subjects
        "MATHS-101" =
      some (.basic ⟨40, 30, (30 : ℚ) / 40 * 100, "SID40", "", "", "", ""⟩)
    ∧ pyDictLookup
        (fetchAttendance [rSample40, rDetailed20] mixedDetail).subjects
        "CHEM-101" =
      some (.detailed 2 1 1 ((1 : ℚ) / 2 * 100) "SIDC" ""
        ["Present", "Absent"]) :=
  ⟨rfl, by trivial,
    (C7_detail_failure_swallowed [rSample40, rDetailed20] mixedDetail).1
      "MATHS-101" _ rfl (by trivial),
    rfl⟩

/-!
### C8 — the latest-marks cache entry and `self.marks_data` aliasing
-/

/-- C8 (counterexample): cache `fetch_marks` at time `0`, run
`fetch_marks_for_semester "Odd 2024"` at time `1`, and hit the still-valid
`'latest_marks'` entry at time `2`: the hit returns a dict that differs from
the `MarksSnapshot` that was stored when the entry was cached (it has gained
the `"Odd 2024"` key), because line 760 mutates the very object the cache
holds. -/
theorem C8_counterexample :
    cacheValidAt
      (fetchMarksForSemesterOp (fetchMarksOp MarksCacheState.init 0 sampleLatest).2
        1 "Odd 2024" samplePerSem).2.latestExpiry 2 = true
    ∧ (fetchMarksOp
        (fetchMarksForSemesterOp (fetchMarksOp MarksCacheState.init 0 sampleLatest).2
          1 "Odd 2024" samplePerSem).2
        2 sampleLatest).1 ≠
      (fetchMarksOp MarksCacheState.init 0 sampleLatest).1 := by
  have hst2 : (fetchMarksForSemesterOp
      (fetchMarksOp MarksCacheState.init 0 sampleLatest).2
      1 "Odd 2024" samplePerSem).2 =
      ⟨⟨some sampleLatest, [("Odd 2024", samplePerSem)]⟩, some ((0 : ℚ) + 300),
        [("marks_semester_Odd 2024", (1 : ℚ) + 300)],
        [("marks_semester_Odd 2024", samplePerSem)]⟩ := rfl
  have hr1 : (fetchMarksOp MarksCacheState.init 0 sampleLatest).1 =
      ⟨some sampleLatest, []⟩ := rfl
  have e0 : ((0 : ℚ) + 300) = 300 := by norm_num
  rw [hst2, hr1, e0]
  constructor
  · decide
  · have hr3 : (fetchMarksOp
        (⟨⟨some sampleLatest, [("Odd 2024", samplePerSem)]⟩, some (300 : ℚ),
          [("marks_semester_Odd 2024", (1 : ℚ) + 300)],
          [("marks_semester_Odd 2024", samplePerSem)]⟩ : MarksCacheState)
        2 sampleLatest).1 =
        ⟨some sampleLatest, [("Odd 2024", samplePerSem)]⟩ := rfl
    rw [hr3]
    simp

/-- C8 (amended): a valid-cache `fetch_marks` hit returns the current
contents of `self.marks_data`, the very object cached under `'latest_marks'`:
its latest-marks fields are still those stored when the entry was cached, but
any `fetch_marks_for_semester` run in between has added its semester key to
it, so the hit does not return the snapshot as it was at caching time. -/
theorem C8_cache_hit_returns_mutated_dict (st : MarksCacheState)
    (now1 now2 now3 : ℚ) (fresh junk : LatestBase) (sem : String)
    (perSem : SemesterMarksData)
    (h1 : cacheValidAt st.latestExpiry now1 = false)
    (h2 : cacheValidAt
      (pyDictLookup (fetchMarksOp st now1 fresh).2.semExpiry
        ("marks_semester_" ++ sem)) now2 = false)
    (h3 : now3 < now1 + 300) :
    (fetchMarksOp st now1 fresh).1 = ⟨some fresh, []⟩
    ∧ (fetchMarksOp
        (fetchMarksForSemesterOp (fetchMarksOp st now1 fresh).2 now2 sem perSem).2
        now3 junk).1 = ⟨some fresh, [(sem, perSem)]⟩ := by
  have hst1 : fetchMarksOp st now1 fresh =
      (⟨some fresh, []⟩,
        { st with
            marksData := ⟨some fresh, []⟩
            latestExpiry := some (now1 + 300) }) := by
    unfold fetchMarksOp
    simp [h1]
  rw [hst1] at h2 ⊢
  refine ⟨rfl, ?_⟩
  have hst2 : (fetchMarksForSemesterOp
      ({ st with
          marksData := ⟨some fresh, []⟩
          latestExpiry := some (now1 + 300) } : MarksCacheState) now2 sem perSem).2 =
      ⟨⟨some fresh, [(sem, perSem)]⟩, some (now1 + 300),
        pyDictInsert st.semExpiry ("marks_semester_" ++ sem) (now2 + 300),
        pyDictInsert st.semCache ("marks_semester_" ++ sem) perSem⟩ := by
    unfold fetchMarksForSemesterOp
    simp only at h2
    simp [h2, pyDictInsert]
  rw [hst2]
  unfold fetchMarksOp
  have hv : cacheValidAt (some (now1 + 300)) now3 = true := by
    simp [cacheValidAt, h3]
  simp [hv]

/-- Witness for `C8_cache_hit_returns_mutated_dict` on the concrete trace
starting from the initial state at times `0`, `1`, `2`. -/
theorem C8_cache_hit_returns_mutated_dict_witness :
    (fetchMarksOp MarksCacheState.init 0 sampleLatest).1 = ⟨some sampleLatest, []⟩
    ∧ (fetchMarksOp
        (fetchMarksForSemesterOp (fetchMarksOp MarksCacheState.init 0 sampleLatest).2
          1 "Odd 2024" samplePerSem).2
        2 sampleLatest).1 = ⟨some sampleLatest, [("Odd 2024", samplePerSem)]⟩ :=
  C8_cache_hit_returns_mutated_dict MarksCacheState.init 0 1 2 sampleLatest
    sampleLatest "Odd 2024" samplePerSem rfl rfl (by norm_num)

/-!
### C9 / C10 — change detection
-/

/-- C9: `attendance_changed` is true iff a previous attendance snapshot
exists and its overall percentage differs (exact `ℚ` inequality) from the
current one; `marks_changed` is true iff a previous marks snapshot exists and
its `cgpa` differs; with no previous snapshots both flags are false
regardless of the current values; and `check_for_changes` with three
successful fetches reports exactly these flags. -/
theorem C9_change_flags (st : LastState) (att : AttendanceSnapshot)
    (marks : MarksResult) (notices : List Notice) (threshold : ℚ) :
    ((computeChanges st att marks notices threshold).attendance_changed = true ↔
      ∃ prev, st.last_attendance_data = some prev ∧
        att.attendance_percentage ≠ prev.attendance_percentage)
    ∧ ((computeChanges st att marks notices threshold).marks_changed = true ↔
      ∃ prev, st.last_marks_data = some prev ∧ marks.cgpa ≠ prev.cgpa)
    ∧ (st.last_attendance_data = none →
        (computeChanges st att marks notices threshold).attendance_changed = false)
    ∧ (st.last_marks_data = none →
        (computeChanges st att marks notices threshold).marks_changed = false)
    ∧ (checkForChanges st (.ok att) (.ok marks) (.ok notices) threshold).1 =
        .ok (computeChanges st att marks notices threshold) := by
  refine ⟨?_, ?_, ?_, ?_, rfl⟩
  · cases h : st.last_attendance_data with
    | none => simp [computeChanges, h]
    | some prev => simp [computeChanges, h]
  · cases h : st.last_marks_data with
    | none => simp [computeChanges, h]
    | some prev => simp [computeChanges, h]
  · intro h
    simp [computeChanges, h]
  · intro h
    simp [computeChanges, h]

/-- Witness for `C9_change_flags`: on the first run (no stored snapshots)
both flags are false even though the current values are arbitrary. -/
theorem C9_change_flags_witness :
    (⟨none, none, []⟩ : LastState).last_attendance_data = none
    ∧ (computeChanges ⟨none, none, []⟩ ⟨40, 30, 75, []⟩ ⟨9, 8⟩ [] 75).attendance_changed
        = false
    ∧ (computeChanges ⟨none, none, []⟩ ⟨40, 30, 75, []⟩ ⟨9, 8⟩ [] 75).marks_changed
        = false :=
  ⟨rfl,
    (C9_change_flags ⟨none, none, []⟩ ⟨40, 30, 75, []⟩ ⟨9, 8⟩ [] 75).2.2.1 rfl,
    (C9_change_flags ⟨none, none, []⟩ ⟨40, 30, 75, []⟩ ⟨9, 8⟩ [] 75).2.2.2.1 rfl⟩

/-- C10: `check_for_changes` updates the three stored snapshots atomically:
if any of the three fetches raises, the exception propagates and
`last_attendance_data`, `last_marks_data` and `last_notices` are all left
unchanged; only when all three fetches (and the comparisons) succeed are they
replaced, by exactly the current values. -/
theorem C10_atomic_update (st : LastState)
    (attR : Except FetchErr AttendanceSnapshot)
    (marksR : Except FetchErr MarksResult)
    (noticesR : Except FetchErr (List Notice)) (threshold : ℚ) :
    (((∃ e, attR = .error e) ∨ (∃ e, marksR = .error e) ∨
        (∃ e, noticesR = .error e)) →
      (∃ e, (checkForChanges st attR marksR noticesR threshold).1 = .error e)
      ∧ (checkForChanges st attR marksR noticesR threshold).2 = st)
    ∧ (∀ att marks notices, attR = .ok att → marksR = .ok marks →
        noticesR = .ok notices →
        checkForChanges st attR marksR noticesR threshold =
          (.ok (computeChanges st att marks notices threshold),
            ⟨some att, some marks, notices⟩)) := by
  constructor
  · intro h
    cases attR with
    | error e => exact ⟨⟨e, rfl⟩, rfl⟩
    | ok att =>
      cases marksR with
      | error e => exact ⟨⟨e, rfl⟩, rfl⟩
      | ok marks =>
        cases noticesR with
        | error e => exact ⟨⟨e, rfl⟩, rfl⟩
        | ok notices => simp at h
  · intro att marks notices ha hm hn
    subst ha
    subst hm
    subst hn
    rfl

/-- Witness for `C10_atomic_update`: a failing attendance fetch propagates
its error and leaves the stored snapshots untouched. -/
theorem C10_atomic_update_witness :
    (∃ e, (checkForChanges ⟨none, none, []⟩ (.error ⟨"boom"⟩) (.ok ⟨9, 8⟩)
        (.ok []) 75).1 = .error e)
    ∧ (checkForChanges ⟨none, none, []⟩ (.error ⟨"boom"⟩) (.ok ⟨9, 8⟩)
        (.ok []) 75).2 = ⟨none, none, []⟩ :=
  (C10_atomic_update ⟨none, none, []⟩ (.error ⟨"boom"⟩) (.ok ⟨9, 8⟩)
    (.ok []) 75).1 (Or.inl ⟨⟨"boom"⟩, rfl⟩)

end PortalPlus

